import Mathlib

/-!
Verification of the RAPIDS demo-notebook repository.

The repository is a set of Jupyter notebooks (DGA detection, asset
classification, cybert log parsing, phishing detection, XGBoost demo,
forest inference, k-means, nearest neighbors, random forest) whose code
is sequential glue: download or generate data, call library estimators,
print metrics, occasionally save or load a serialized model.

The shallow embedding below models each notebook as the ordered list of
its observable actions (S3 download guards, CSV reads, synthetic data
generation, library calls with their keyword parameters, file writes,
model-file loads, directory creation, console or cell output), transcribed
cell by cell from the notebook sources.  Exception handlers are transcribed
separately, one record per try/except block in the repository.  The two
pure preprocessing functions of the asset-classification notebook
(categorize_columns, normalize_conts) and the pickle round trip of the
random-forest notebook are embedded as functions and verified directly.
-/

namespace Rapids

/-- Kind of console/cell output a notebook emits.  Both explicit
print(...) calls and a bare trailing expression (which Jupyter echoes into
the cell output) are console emissions; neither writes a file. -/
inductive OutKind where
  | accuracyK
  | f1K
  | confusionMatrixK
  | aucK
  | avgPrecisionK
  | reportK
  | comparisonK
  | infoK
deriving DecidableEq

/-- What kind of content a file-creating operation writes. -/
inductive FileKind where
  | serializedModel
  | datasetFile
  | metricsFile
deriving DecidableEq

/-- A call into a wrapped third-party library: library module, function,
and the keyword parameters the notebook passes explicitly. -/
structure LibCall where
  lib : String
  fn : String
  params : List (String × String)
deriving DecidableEq

/-- One observable action of a notebook cell. -/
inductive Action where
  /-- Guarded download: `if not os.path.exists(file): s3fs.S3FileSystem(anon=True).get(base + "/" + file, file)` -/
  | s3FetchGuard (base file : String)
  /-- Reading a dataset: `cudf.read_csv(file)` -/
  | readCsv (file : String)
  /-- synthetic data creation (simulate_data, make_blobs, make_classification) -/
  | generate (fn : String)
  /-- a call into a wrapped library -/
  | call (c : LibCall)
  /-- a file-creating operation performed by `lib` writing `path` -/
  | writeFile (lib path : String) (kind : FileKind)
  /-- loading a previously serialized model file into a library component -/
  | loadModelFile (lib path : String)
  /-- Guarded directory creation: `if not os.path.exists(dir): os.makedirs(dir)` -/
  | makeDirGuard (dir : String)
  /-- console or cell output -/
  | consoleOut (k : OutKind) (desc : String)
deriving DecidableEq

/-- A notebook: its name and the ordered actions of its code cells. -/
structure Notebook where
  name : String
  actions : List Action
deriving DecidableEq

/-- The constant `S3_BASE_PATH` as defined identically in the DGA, asset-classification,
cybert and phishing notebooks. -/
def S3_BASE_PATH : String := "rapidsai-data/cyber/clx"

/-- Placeholder for `now.strftime("%Y-%m-%d_%H_%M_%S")` in the DGA
notebook; the concrete value does not affect any property below. -/
def dga_timestamp : String := "<timestamp>"

/-- The model path the DGA notebook writes:
os.path.join of MODELS_DIR with rnn_classifier_, the timestamp, and .bin. -/
def dga_model_path : String := "models/rnn_classifier_" ++ dga_timestamp ++ ".bin"

/-- DGA detection notebook (benign_and_dga_domains.csv, CLX DGADetector). -/
def dga_nb : Notebook :=
  { name := "dga_detection"
    actions :=
      [ .s3FetchGuard S3_BASE_PATH "benign_and_dga_domains.csv"
      , .readCsv "benign_and_dga_domains.csv"
      , .call ⟨"clx.analytics.dga_detector", "DGADetector", [("lr", "0.001")]⟩
      , .call ⟨"clx.analytics.dga_detector", "init_model",
          [("n_layers", "3"), ("char_vocab", "128"), ("hidden_size", "100"),
           ("n_domain_type", "2")]⟩
      , .call ⟨"clx.analytics.dga_detector", "train_model",
          [("batch_size", "10000"), ("epochs", "25"), ("train_size", "0.7")]⟩
      , .makeDirGuard "models"
      , .writeFile "clx.analytics.dga_detector" dga_model_path .serializedModel
      , .consoleOut .infoK "Pretrained model saved to location"
      , .call ⟨"clx.analytics.dga_detector", "DGADetector", []⟩
      , .loadModelFile "clx.analytics.dga_detector" dga_model_path
      , .call ⟨"cuml.preprocessing.model_selection", "train_test_split",
          [("train_size", "0.7")]⟩
      , .call ⟨"clx.analytics.dga_detector", "predict", []⟩
      , .consoleOut .accuracyK "Model accuracy"
      , .consoleOut .avgPrecisionK "Average precision score" ]
  }

/-- Asset classification notebook (win_events_features_preproc.csv, CLX
AssetClassification).  The confusion matrix is delivered by a trailing
`pd.DataFrame(a, index=labels, columns=labels)` expression, echoed as cell
output. -/
def asset_nb : Notebook :=
  { name := "asset_classification"
    actions :=
      [ .call ⟨"clx.analytics.asset_classification", "AssetClassification", []⟩
      , .s3FetchGuard S3_BASE_PATH "win_events_features_preproc.csv"
      , .readCsv "win_events_features_preproc.csv"
      , .call ⟨"cuml.preprocessing", "train_test_split", [("train_size", "0.9")]⟩
      , .call ⟨"clx.analytics.asset_classification", "train_model",
          [("batch_size", "10000"), ("epochs", "15"), ("lr", "0.01"), ("wd", "0.0")]⟩
      , .call ⟨"clx.analytics.asset_classification", "predict", []⟩
      , .consoleOut .f1K "micro F1 score"
      , .call ⟨"torch.cuda", "empty_cache", []⟩
      , .call ⟨"sklearn.metrics", "confusion_matrix", []⟩
      , .consoleOut .confusionMatrixK "confusion matrix rendered as displayed dataframe" ]
  }

/-- XGBoost demo notebook.  `LOAD = False`, so the executed branch is
`simulate_data`; `xgb.train` is called with an evallist and
`eval_metric = auc`, which prints per-round train/validation AUC. -/
def xgb_nb : Notebook :=
  { name := "xgboost_demo"
    actions :=
      [ .consoleOut .infoK "library versions"
      , .generate "simulate_data"
      , .consoleOut .infoK "dataset shape"
      , .consoleOut .infoK "train and validation shapes and proportions"
      , .call ⟨"xgboost", "DMatrix", []⟩
      , .call ⟨"xgboost", "DMatrix", []⟩
      , .consoleOut .infoK "params"
      , .call ⟨"xgboost", "train",
          [("silent", "1"), ("tree_method", "gpu_hist"), ("n_gpus", "1"),
           ("eval_metric", "auc"), ("objective", "binary:logistic"),
           ("num_round", "10")]⟩
      , .consoleOut .aucK "per-round train and validation AUC emitted via evallist" ]
  }

/-- Cybert log-parsing notebook (apache_sample_1k.csv, BERT token
classification via an explicit torch training loop). -/
def cybert_nb : Notebook :=
  { name := "cybert_example_training"
    actions :=
      [ .s3FetchGuard S3_BASE_PATH "apache_sample_1k.csv"
      , .readCsv "apache_sample_1k.csv"
      , .consoleOut .infoK "sample raw log"
      , .call ⟨"cudf", "subword_tokenize",
          [("do_lower", "False"), ("do_truncate", "False")]⟩
      , .call ⟨"torch", "tensor", []⟩
      , .call ⟨"cudf", "subword_tokenize",
          [("do_lower", "False"), ("do_truncate", "True")]⟩
      , .call ⟨"torch.utils.data", "TensorDataset", []⟩
      , .call ⟨"torch.utils.data", "random_split", []⟩
      , .call ⟨"torch.utils.data", "DataLoader",
          [("shuffle", "True"), ("batch_size", "32")]⟩
      , .call ⟨"torch.utils.data", "DataLoader",
          [("shuffle", "False"), ("batch_size", "1")]⟩
      , .call ⟨"transformers", "BertForTokenClassification.from_pretrained", []⟩
      , .call ⟨"torch.nn", "DataParallel", []⟩
      , .call ⟨"torch.optim", "Adam", [("lr", "3e-5")]⟩
      , .call ⟨"torch", "training loop with forward, backward, clip_grad_norm, step",
          [("epochs", "2"), ("max_grad_norm", "1.0")]⟩
      , .consoleOut .infoK "Train loss per epoch"
      , .call ⟨"torch", "eval loop with forward and argmax", []⟩
      , .consoleOut .f1K "f1 score"
      , .consoleOut .accuracyK "Accuracy score"
      , .consoleOut .reportK "classification report" ]
  }

/-- Phishing detection notebook (five TSV datasets, CLX SequenceClassifier;
four train/evaluate rounds on growing dataset unions).  Each
`evaluate_model` result is echoed as cell output. -/
def phish_nb : Notebook :=
  { name := "phish_detection"
    actions :=
      [ .s3FetchGuard S3_BASE_PATH "Phishing_Dataset_Clair_Collection.tsv"
      , .readCsv "Phishing_Dataset_Clair_Collection.tsv"
      , .s3FetchGuard S3_BASE_PATH "spam_assassin_spam_200_20021010.tsv"
      , .readCsv "spam_assassin_spam_200_20021010.tsv"
      , .s3FetchGuard S3_BASE_PATH "spam_assassin_easyham_200_20021010.tsv"
      , .readCsv "spam_assassin_easyham_200_20021010.tsv"
      , .s3FetchGuard S3_BASE_PATH "spam_assassin_hardham_200_20021010.tsv"
      , .readCsv "spam_assassin_hardham_200_20021010.tsv"
      , .s3FetchGuard S3_BASE_PATH "enron_10000.tsv"
      , .readCsv "enron_10000.tsv"
      , .call ⟨"clx.analytics.sequence_classifier", "SequenceClassifier", []⟩
      , .call ⟨"clx.analytics.sequence_classifier", "init_model",
          [("model_or_path", "bert-base-uncased")]⟩
      , .call ⟨"cuml.preprocessing.model_selection", "train_test_split",
          [("train_size", "0.8")]⟩
      , .call ⟨"clx.analytics.sequence_classifier", "train_model", [("epochs", "1")]⟩
      , .call ⟨"clx.analytics.sequence_classifier", "evaluate_model", []⟩
      , .consoleOut .accuracyK "evaluate_model accuracy echoed as cell output"
      , .call ⟨"cuml.preprocessing.model_selection", "train_test_split",
          [("train_size", "0.8")]⟩
      , .call ⟨"clx.analytics.sequence_classifier", "train_model", [("epochs", "1")]⟩
      , .call ⟨"clx.analytics.sequence_classifier", "evaluate_model", []⟩
      , .consoleOut .accuracyK "evaluate_model accuracy echoed as cell output"
      , .call ⟨"cuml.preprocessing.model_selection", "train_test_split",
          [("train_size", "0.8")]⟩
      , .call ⟨"clx.analytics.sequence_classifier", "train_model", [("epochs", "1")]⟩
      , .call ⟨"clx.analytics.sequence_classifier", "evaluate_model", []⟩
      , .consoleOut .accuracyK "evaluate_model accuracy echoed as cell output"
      , .call ⟨"cuml.preprocessing.model_selection", "train_test_split",
          [("train_size", "0.8")]⟩
      , .call ⟨"clx.analytics.sequence_classifier", "train_model", [("epochs", "1")]⟩
      , .call ⟨"clx.analytics.sequence_classifier", "evaluate_model", []⟩
      , .consoleOut .accuracyK "evaluate_model accuracy echoed as cell output" ]
  }

/-- Forest inference notebook: trains with XGBoost, saves the booster to
xgb.model, then loads that file into cuML ForestInference (algo
BATCH_TREE_REORG, output_class True, threshold 0.50, model_type xgboost)
and compares predictions. -/
def forest_nb : Notebook :=
  { name := "forest_inference_demo"
    actions :=
      [ .generate "make_classification"
      , .call ⟨"sklearn.model_selection", "train_test_split", [("train_size", "0.8")]⟩
      , .call ⟨"xgboost", "DMatrix", []⟩
      , .call ⟨"xgboost", "train",
          [("silent", "1"), ("eval_metric", "error"),
           ("objective", "binary:logistic"), ("max_depth", "25"),
           ("num_rounds", "15")]⟩
      , .writeFile "xgboost" "xgb.model" .serializedModel
      , .call ⟨"xgboost", "DMatrix", []⟩
      , .call ⟨"xgboost", "predict", []⟩
      , .loadModelFile "cuml.ForestInference" "xgb.model"
      , .call ⟨"cuml", "ForestInference.predict", []⟩
      , .consoleOut .infoK "shapes of xgboost and FIL predictions"
      , .consoleOut .comparisonK "Are the predictions for xgboost and FIL the same" ]
  }

/-- K-means demo notebook (sklearn KMeans vs cuML KMeans on make_blobs
data, adjusted rand score comparison). -/
def kmeans_nb : Notebook :=
  { name := "kmeans_demo"
    actions :=
      [ .generate "make_blobs"
      , .call ⟨"sklearn.cluster", "KMeans",
          [("init", "k-means++"), ("n_clusters", "5"), ("n_jobs", "-1"),
           ("random_state", "0")]⟩
      , .call ⟨"sklearn.cluster", "fit", []⟩
      , .call ⟨"cuml.cluster", "KMeans",
          [("init", "k-means||"), ("n_clusters", "5"),
           ("oversampling_factor", "40"), ("random_state", "0")]⟩
      , .call ⟨"cuml.cluster", "fit", []⟩
      , .call ⟨"matplotlib.pyplot", "scatter and show", []⟩
      , .call ⟨"sklearn.metrics", "adjusted_rand_score", []⟩
      , .call ⟨"sklearn.metrics", "adjusted_rand_score", []⟩
      , .consoleOut .comparisonK "compare kmeans cuml vs sklearn labels equal or not" ]
  }

/-- Nearest neighbors demo notebook (sklearn vs cuML NearestNeighbors on
make_blobs data). -/
def nn_nb : Notebook :=
  { name := "nearest_neighbors_demo"
    actions :=
      [ .generate "make_blobs"
      , .call ⟨"sklearn.neighbors", "NearestNeighbors",
          [("algorithm", "brute"), ("n_jobs", "-1")]⟩
      , .call ⟨"sklearn.neighbors", "fit", []⟩
      , .call ⟨"sklearn.neighbors", "kneighbors", [("n_neighbors", "4")]⟩
      , .call ⟨"cuml.neighbors", "NearestNeighbors", []⟩
      , .call ⟨"cuml.neighbors", "fit", []⟩
      , .call ⟨"cuml.neighbors", "kneighbors", [("n_neighbors", "4")]⟩
      , .consoleOut .comparisonK "compare knn cuml vs sklearn distances equal or not"
      , .consoleOut .comparisonK "compare knn cuml vs sklearn indexes equal or not" ]
  }

/-- Random forest demo notebook (sklearn vs cuML RandomForestClassifier on
make_classification data; the cuML model is pickled, reloaded, and its
accuracy compared before and after pickling). -/
def rf_nb : Notebook :=
  { name := "random_forest_demo"
    actions :=
      [ .generate "make_classification"
      , .call ⟨"sklearn.model_selection", "train_test_split",
          [("test_size", "0.2"), ("random_state", "0")]⟩
      , .call ⟨"sklearn.ensemble", "RandomForestClassifier",
          [("n_estimators", "40"), ("max_depth", "16"), ("max_features", "1.0"),
           ("random_state", "10")]⟩
      , .call ⟨"sklearn.ensemble", "fit", []⟩
      , .call ⟨"sklearn.ensemble", "predict", []⟩
      , .call ⟨"cuml.ensemble", "RandomForestClassifier",
          [("n_estimators", "40"), ("max_depth", "16"), ("max_features", "1.0"),
           ("random_state", "10")]⟩
      , .call ⟨"cuml.ensemble", "fit", []⟩
      , .call ⟨"cuml.ensemble", "predict", []⟩
      , .writeFile "pickle of cuml.ensemble.RandomForestClassifier"
          "cuml_random_forest_model.sav" .serializedModel
      , .loadModelFile "pickle of cuml.ensemble.RandomForestClassifier"
          "cuml_random_forest_model.sav"
      , .call ⟨"cuml.ensemble", "predict", []⟩
      , .consoleOut .accuracyK "CUML accuracy of the RF model before pickling"
      , .consoleOut .accuracyK "CUML accuracy of the RF model after pickling"
      , .consoleOut .accuracyK "SKL accuracy" ]
  }

/-- Every notebook in the repository, in source order. -/
def allNotebooks : List Notebook :=
  [dga_nb, asset_nb, xgb_nb, cybert_nb, phish_nb, forest_nb, kmeans_nb, nn_nb, rf_nb]

/-- The notebooks that load a local dataset file from disk. -/
def datasetNotebooks : List Notebook :=
  [dga_nb, asset_nb, cybert_nb, phish_nb]

/-! ### Exception handlers

One record per try/except block occurring anywhere in the repository
(there are exactly ten, all of the shape
`try: import X / except ImportError: !conda install ... / import X`). -/

/-- One try/except block of the repository: which notebook it is in, the
exception type it catches, the package the handler installs, and whether
the handler retries the import exactly once after installing. -/
structure ExceptClause where
  notebook : String
  caught : String
  installPkg : String
  retriesImportOnce : Bool
deriving DecidableEq

/-- Every try/except block in the repository, transcribed in source
order. -/
def allExceptClauses : List ExceptClause :=
  [ ⟨"dga_detection", "ImportError", "s3fs", true⟩
  , ⟨"dga_detection", "ImportError", "clx", true⟩
  , ⟨"asset_classification", "ImportError", "s3fs", true⟩
  , ⟨"asset_classification", "ImportError", "clx", true⟩
  , ⟨"cybert_example_training", "ImportError", "seqeval", true⟩
  , ⟨"cybert_example_training", "ImportError", "s3fs", true⟩
  , ⟨"phish_detection", "ImportError", "clx", true⟩
  , ⟨"phish_detection", "ImportError", "s3fs", true⟩
  , ⟨"forest_inference_demo", "ImportError", "pytest", true⟩
  , ⟨"kmeans_demo", "ImportError", "matplotlib", true⟩ ]

/-! ### File-system semantics of the S3 download guard -/

/-- A local file system: an association list from path to content. -/
abbrev FileSys := List (String × String)

/-- Python `os.path.exists` over the modelled file system. -/
def fsExists (fs : FileSys) (p : String) : Bool :=
  fs.any (fun e => e.1 == p)

/-- Read a local file. -/
def fsLookup (fs : FileSys) (p : String) : Option String :=
  (fs.find? (fun e => e.1 == p)).map (fun e => e.2)

/-- The anonymous S3 bucket: keys to object contents. -/
structure S3Bucket where
  objects : List (String × String)
deriving DecidableEq

/-- Content lookup in the bucket, as in `fs.get(key, dest)`. -/
def s3Get (s3 : S3Bucket) (key : String) : Option String :=
  (s3.objects.find? (fun e => e.1 == key)).map (fun e => e.2)

/-- Semantics of the download-guard cell
`if not os.path.exists(file): fs.get(base + "/" + file, file)`:
returns the resulting file system and whether a fetch was executed. -/
def runFetchGuard (s3 : S3Bucket) (base file : String) (fs : FileSys) :
    FileSys × Bool :=
  if fsExists fs file then (fs, false)
  else ((file, (s3Get s3 (base ++ "/" ++ file)).getD "") :: fs, true)

/-! ### Trace predicates -/

/-- Does the action download a dataset? -/
def Action.isFetch : Action → Bool
  | .s3FetchGuard _ _ => true
  | _ => false

/-- A download guard uses the `rapidsai-data/cyber/clx` base path. -/
def fetchBaseIsCLX : Action → Bool
  | .s3FetchGuard base _ => base == S3_BASE_PATH
  | _ => true

/-- Every CSV/TSV file a notebook reads has a download guard for the same
file name over the standard base path. -/
def readsAreGuarded (nb : Notebook) : Bool :=
  nb.actions.all fun a =>
    match a with
    | .readCsv f => nb.actions.contains (.s3FetchGuard S3_BASE_PATH f)
    | _ => true

/-- The notebook downloads at least one dataset file. -/
def downloadsDataset (nb : Notebook) : Bool :=
  nb.actions.any Action.isFetch

/-- The notebook generates a synthetic dataset. -/
def generatesDataset (nb : Notebook) : Bool :=
  nb.actions.any fun a =>
    match a with
    | .generate _ => true
    | _ => false

/-- The notebook calls at least one wrapped-library function. -/
def callsLibraryFn (nb : Notebook) : Bool :=
  nb.actions.any fun a =>
    match a with
    | .call _ => true
    | _ => false

/-- Output kinds that are accuracy-style metrics. -/
def isAccuracyMetricOut : OutKind → Bool
  | .accuracyK => true
  | .f1K => true
  | .confusionMatrixK => true
  | .aucK => true
  | .avgPrecisionK => true
  | .reportK => true
  | .comparisonK => false
  | .infoK => false

/-- The notebook prints an accuracy-style metric. -/
def printsAccuracyMetric (nb : Notebook) : Bool :=
  nb.actions.any fun a =>
    match a with
    | .consoleOut k _ => isAccuracyMetricOut k
    | _ => false

/-- The notebook prints some evaluation result (an accuracy-style metric
or a cross-library comparison verdict). -/
def printsEvaluationResult (nb : Notebook) : Bool :=
  nb.actions.any fun a =>
    match a with
    | .consoleOut k _ => isAccuracyMetricOut k || k == .comparisonK
    | _ => false

/-- Every file the notebook writes is a serialized model artifact. -/
def writesOnlyModelArtifacts (nb : Notebook) : Bool :=
  nb.actions.all fun a =>
    match a with
    | .writeFile _ _ k => k == FileKind.serializedModel
    | _ => true

/-- The dataset files the notebook touches (downloaded or read). -/
def datasetFilesOf (nb : Notebook) : List String :=
  nb.actions.filterMap fun a =>
    match a with
    | .readCsv f => some f
    | .s3FetchGuard _ f => some f
    | _ => none

/-- The files downloaded by the notebook. -/
def fetchFilesOf (nb : Notebook) : List String :=
  nb.actions.filterMap fun a =>
    match a with
    | .s3FetchGuard _ f => some f
    | _ => none

/-- The paths of files the notebook creates. -/
def writtenPathsOf (nb : Notebook) : List String :=
  nb.actions.filterMap fun a =>
    match a with
    | .writeFile _ p _ => some p
    | _ => none

/-- No file-creating operation of the notebook targets one of its dataset
files. -/
def leavesDatasetsUntouched (nb : Notebook) : Bool :=
  (writtenPathsOf nb).all fun p => !((datasetFilesOf nb).contains p)

/-- The notebook writes a serialized model with one library component and
later loads the same path into a different library component. -/
def feedsModelAcross (nb : Notebook) : Bool :=
  nb.actions.enum.any fun ia =>
    match ia.2 with
    | .writeFile l p _ =>
        nb.actions.enum.any fun jb =>
          match jb.2 with
          | .loadModelFile l2 p2 => decide (ia.1 < jb.1) && (p2 == p) && !(l2 == l)
          | _ => false
    | _ => false

/-- Keyword parameters that control library-internal parallelism. -/
def parallelParamNames : List String := ["n_jobs", "n_gpus", "num_workers", "nthread"]

/-- The notebook passes a parallelism-controlling keyword parameter to a
wrapped library. -/
def passesParallelismParam (nb : Notebook) : Bool :=
  nb.actions.any fun a =>
    match a with
    | .call c => c.params.any (fun p => parallelParamNames.contains p.1)
    | _ => false

/-- Python modules providing thread/process creation or synchronization
primitives. -/
def threadPrimitiveLibs : List String :=
  ["threading", "multiprocessing", "concurrent.futures", "asyncio", "subprocess"]

/-- The notebook itself creates threads or processes or uses
synchronization primitives. -/
def createsThreadsOrProcesses (nb : Notebook) : Bool :=
  nb.actions.any fun a =>
    match a with
    | .call c => threadPrimitiveLibs.contains c.lib
    | _ => false

/-- No file-creating operation of the notebook writes metrics. -/
def writesNoMetricsFile (nb : Notebook) : Bool :=
  nb.actions.all fun a =>
    match a with
    | .writeFile _ _ k => !(k == FileKind.metricsFile)
    | _ => true

/-! ### The pickle round trip of the random-forest notebook

The notebook pickles the trained cuML RandomForestClassifier with
`pickle.dump(cuml_model, open(filename, "wb"))`, deletes it, reloads it
with `pickle.load(open(filename, "rb"))`, and compares the accuracy of
`predict` on the same test set before and after.  pickle is an external
faithful serializer: loading a dump reconstructs an equal object.  It is
modelled here by an explicit encoder/decoder pair on the model state with
a proved round trip; the estimator internals stay abstract (the claim is
quantified over the predict function). -/

/-- State of a trained cuML random-forest model: hyperparameters and the
serialized forest data. -/
structure CumlRF where
  n_estimators : Nat
  max_depth : Nat
  trees : List Int
deriving DecidableEq

/-- Serialization of the model state, `pickle.dump`. -/
def pickle_dump (m : CumlRF) : List Int :=
  (m.n_estimators : Int) :: (m.max_depth : Int) :: (m.trees.length : Int) :: m.trees

/-- Parsing a serialized model state back, `pickle.load`. -/
def pickle_load : List Int → Option CumlRF
  | ne :: md :: len :: rest =>
      if 0 ≤ ne ∧ 0 ≤ md ∧ len = (rest.length : Int) then
        some ⟨ne.toNat, md.toNat, rest⟩
      else none
  | _ => none

/-- The `sklearn.metrics` and `cuml.metrics` accuracy_score: fraction of positions
where prediction and truth agree. -/
def accuracy_score (yTrue yPred : List Int) : ℚ :=
  (((yTrue.zip yPred).filter (fun p => p.1 == p.2)).length : ℚ) / (yTrue.length : ℚ)

/-! ### normalize_conts of the asset-classification notebook

Source:
`means, stds = (cont_gdf.mean(0), cont_gdf.std(ddof=0))`
`cont_gdf = (cont_gdf - means) / stds`
modelled columnwise over the reals. -/

/-- Column mean, `cont_gdf.mean(0)`. -/
noncomputable def colMean (l : List ℝ) : ℝ := l.sum / l.length

/-- Population variance of a column (the ddof=0 convention: divide by the
number of rows). -/
noncomputable def colPopVar (l : List ℝ) : ℝ :=
  ((l.map (fun x => (x - colMean l) ^ 2)).sum) / l.length

/-- Population standard deviation, `cont_gdf.std(ddof=0)`. -/
noncomputable def colPopStd (l : List ℝ) : ℝ := Real.sqrt (colPopVar l)

/-- One column of `(cont_gdf - means) / stds`. -/
noncomputable def normalizeCol (l : List ℝ) : List ℝ :=
  l.map (fun x => (x - colMean l) / colPopStd l)

/-- Columnwise standardization of the dataframe, `normalize_conts`. -/
noncomputable def normalize_conts (df : List (List ℝ)) : List (List ℝ) :=
  df.map normalizeCol

/-! ### categorize_columns of the asset-classification notebook

Source, per column:
`cat_gdf[col] = cat_gdf[col].astype(str)`
`cat_gdf[col] = cat_gdf[col].fillna("NA")`
`cat_gdf[col] = LabelEncoder().fit_transform(cat_gdf[col])`
`cat_gdf[col] = cat_gdf[col].astype(int16)`
The dataframe is cudf, and cudf casts preserve the null mask: a null
entry stays null through astype(str) (unlike pandas, where astype(str)
stringifies NaN), so the subsequent fillna does replace nulls. -/

/-- cudf `astype(str)`: stringify the non-null entries, keep nulls. -/
def astype_str {α : Type} (toStr : α → String) (col : List (Option α)) :
    List (Option String) :=
  col.map (Option.map toStr)

/-- cudf `fillna` with the literal NA string. -/
def fillna_NA (col : List (Option String)) : List String :=
  col.map (fun v => v.getD "NA")

/-- cudf `LabelEncoder().fit_transform`: one non-negative integer code per
distinct value, modelled as the index in the deduplicated value list
(which rows share a code is what matters below, not the code order). -/
def labelEncode (col : List String) : List Nat :=
  col.map fun v => col.dedup.indexOf v

/-- Cast `astype(int16)`: wrap a non-negative code into the int16 range. -/
def int16_of_nat (n : Nat) : Int :=
  ((n : Int) + 2 ^ 15) % 2 ^ 16 - 2 ^ 15

/-- Per column astype(str), fillna, label encoding, astype(int16):
the body of `categorize_columns`. -/
def categorize_columns {α : Type} (toStr : α → String)
    (df : List (List (Option α))) : List (List Int) :=
  df.map fun col => (labelEncode (fillna_NA (astype_str toStr col))).map int16_of_nat

/-- The concrete dataframe used to witness the categorize_columns claim. -/
def c9df : List (List (Option String)) := [[some "b", none, some "a"]]

/-! ### Claim theorems -/

/-- C1: in every notebook that uses a local dataset file (DGA detection,
asset classification, cybert, phishing detection), each S3 download guard
targets `rapidsai-data/cyber/clx/<filename>`, every dataset file read has
such a guard, and the guard fetches if and only if the file does not
already exist locally; when the file exists the guard leaves the file
system untouched, and otherwise it stores the fetched object under the
local file name. -/
theorem claim_C1 :
    (datasetNotebooks.all (fun nb => nb.actions.all fetchBaseIsCLX) = true)
    ∧ (datasetNotebooks.all readsAreGuarded = true)
    ∧ ∀ (s3 : S3Bucket) (base file : String) (fs : FileSys),
        ((runFetchGuard s3 base file fs).2 = true ↔ fsExists fs file = false)
        ∧ (fsExists fs file = true → runFetchGuard s3 base file fs = (fs, false))
        ∧ (fsExists fs file = false →
            runFetchGuard s3 base file fs
              = ((file, (s3Get s3 (base ++ "/" ++ file)).getD "") :: fs, true)) := by
  refine ⟨by decide, by decide, ?_⟩
  intro s3 base file fs
  rcases Bool.eq_false_or_eq_true (fsExists fs file) with h | h <;>
    simp [runFetchGuard, h]

/-- Witness for C1: with the DGA dataset already present locally the guard
fetches nothing and keeps the file system as-is; with an empty local file
system it fetches the object from `rapidsai-data/cyber/clx/`. -/
theorem claim_C1_witness :
    (runFetchGuard
        (S3Bucket.mk [("rapidsai-data/cyber/clx/benign_and_dga_domains.csv", "s3data")])
        S3_BASE_PATH "benign_and_dga_domains.csv"
        [("benign_and_dga_domains.csv", "localdata")]
      = ([("benign_and_dga_domains.csv", "localdata")], false))
    ∧ (runFetchGuard
        (S3Bucket.mk [("rapidsai-data/cyber/clx/benign_and_dga_domains.csv", "s3data")])
        S3_BASE_PATH "benign_and_dga_domains.csv" []
      = ([("benign_and_dga_domains.csv", "s3data")], true)) := by
  constructor
  · exact (claim_C1.2.2 _ _ _ _).2.1 (by decide)
  · have h := (claim_C1.2.2
      (S3Bucket.mk [("rapidsai-data/cyber/clx/benign_and_dga_domains.csv", "s3data")])
      S3_BASE_PATH "benign_and_dga_domains.csv" []).2.2 (by decide)
    simpa using h

/-- C2: every exception handler in the repository catches exactly
ImportError around an optional-dependency import and responds by
installing the missing package and retrying the import once;
`allExceptClauses` enumerates every try/except block of the repository,
so no other exception type is caught anywhere. -/
theorem claim_C2 :
    allExceptClauses.all
      (fun h => (h.caught == "ImportError") && h.retriesImportOnce) = true := by
  decide

/-- C3 as stated is false: the nearest-neighbors notebook downloads no
dataset (it generates one with make_blobs) and prints no accuracy metric
(only equal/not-equal comparison verdicts). -/
theorem claim_C3_counterexample :
    nn_nb ∈ allNotebooks
    ∧ downloadsDataset nn_nb = false
    ∧ printsAccuracyMetric nn_nb = false := by
  refine ⟨by decide, by decide, by decide⟩

/-- C3 amended: every notebook obtains a dataset either by downloading it
or by generating it synthetically (simulate_data, make_blobs,
make_classification), calls a few wrapped-library functions, and prints
evaluation results (accuracy metrics or comparison verdicts). -/
theorem claim_C3 :
    allNotebooks.all (fun nb =>
      (downloadsDataset nb || generatesDataset nb)
        && callsLibraryFn nb && printsEvaluationResult nb) = true := by
  decide

/-- C4: every file any notebook creates is a serialized model artifact;
the DGA notebook creates the models directory (guarded) before writing
the trained model to models/rnn_classifier_<timestamp>.bin; the
random-forest notebook pickles its cuML model to
cuml_random_forest_model.sav; and no notebook writes metrics to a file,
so metrics are delivered only as console output. -/
theorem claim_C4 :
    (allNotebooks.all writesOnlyModelArtifacts = true)
    ∧ (Action.makeDirGuard "models" ∈ dga_nb.actions)
    ∧ (Action.writeFile "clx.analytics.dga_detector" dga_model_path
        FileKind.serializedModel ∈ dga_nb.actions)
    ∧ (dga_nb.actions.indexOf (Action.makeDirGuard "models")
        < dga_nb.actions.indexOf
            (Action.writeFile "clx.analytics.dga_detector" dga_model_path
              FileKind.serializedModel))
    ∧ (Action.writeFile "pickle of cuml.ensemble.RandomForestClassifier"
        "cuml_random_forest_model.sav" FileKind.serializedModel ∈ rf_nb.actions)
    ∧ (allNotebooks.all writesNoMetricsFile = true) := by
  refine ⟨by decide, by decide, by decide, by decide, by decide, by decide⟩

/-- C6 as stated is false: the forest-inference notebook saves the
XGBoost-trained model to xgb.model and loads that file into cuML
ForestInference, feeding the output of one library component into
another library component via a serialized model file. -/
theorem claim_C6_counterexample :
    forest_nb ∈ allNotebooks ∧ feedsModelAcross forest_nb = true := by
  refine ⟨by decide, by decide⟩

/-- C6 amended: the forest-inference notebook is the only one that feeds a
serialized model produced by one library component into a different
library component; it hands the XGBoost model file xgb.model to cuML
ForestInference.  All other notebooks keep the single pipeline dataset
to dataframe to estimator to prediction to metric. -/
theorem claim_C6 :
    (allNotebooks.all (fun nb =>
      (nb.name == "forest_inference_demo") || !(feedsModelAcross nb)) = true)
    ∧ (Action.writeFile "xgboost" "xgb.model" FileKind.serializedModel
        ∈ forest_nb.actions)
    ∧ (Action.loadModelFile "cuml.ForestInference" "xgb.model" ∈ forest_nb.actions) := by
  refine ⟨by decide, by decide, by decide⟩

/-- C7: no notebook ever writes to or modifies a dataset file it loads:
every file-creating operation targets a path distinct from all dataset
files of the notebook, every created file is a model artifact, and each
dataset file is downloaded at most once. -/
theorem claim_C7 :
    (allNotebooks.all leavesDatasetsUntouched = true)
    ∧ (allNotebooks.all writesOnlyModelArtifacts = true)
    ∧ (allNotebooks.all (fun nb => decide (fetchFilesOf nb).Nodup) = true) := by
  refine ⟨by decide, by decide, by decide⟩

/-- C10 as stated is false: the nearest-neighbors notebook passes the
parallelism-controlling parameter n_jobs=-1 to the scikit-learn
NearestNeighbors estimator. -/
theorem claim_C10_counterexample :
    nn_nb ∈ allNotebooks ∧ passesParallelismParam nn_nb = true := by
  refine ⟨by decide, by decide⟩

/-- C10 amended: no notebook creates threads or processes or uses
synchronization primitives; the only parallelism-related controls handed
to the wrapped libraries are n_jobs=-1 (nearest neighbors and k-means),
n_gpus=1 (XGBoost demo), and the nn.DataParallel model wrapper
(cybert). -/
theorem claim_C10 :
    (allNotebooks.all (fun nb => !(createsThreadsOrProcesses nb)) = true)
    ∧ (allNotebooks.filter passesParallelismParam = [xgb_nb, kmeans_nb, nn_nb])
    ∧ (Action.call ⟨"torch.nn", "DataParallel", []⟩ ∈ cybert_nb.actions) := by
  refine ⟨by decide, by decide, by decide⟩

theorem pickle_roundtrip (m : CumlRF) : pickle_load (pickle_dump m) = some m := by
  cases m with
  | mk ne md trees =>
      simp [pickle_dump, pickle_load]

/-- C5: pickling the trained cuML model and loading it back yields a model
whose predict on the same test set produces the same predictions, hence
the same accuracy score, as the original model, for any predict function
the estimator implements. -/
theorem claim_C5 (predict : CumlRF → List (List ℚ) → List Int)
    (m m' : CumlRF) (X : List (List ℚ)) (y : List Int)
    (hload : pickle_load (pickle_dump m) = some m') :
    predict m' X = predict m X
    ∧ accuracy_score y (predict m' X) = accuracy_score y (predict m X) := by
  rw [pickle_roundtrip m] at hload
  injection hload with hm
  subst hm
  exact ⟨rfl, rfl⟩

/-- Witness for C5 at a concrete model, test set and predict function. -/
theorem claim_C5_witness :
    pickle_load (pickle_dump (CumlRF.mk 40 16 [7, 3])) = some (CumlRF.mk 40 16 [7, 3])
    ∧ ([0, 1, 1] : List Int) = [0, 1, 1]
    ∧ accuracy_score [0, 1, 0] [0, 1, 1] = accuracy_score [0, 1, 0] [0, 1, 1] :=
  ⟨by decide,
   by exact (claim_C5 (fun _ _ => [0, 1, 1]) (CumlRF.mk 40 16 [7, 3])
     (CumlRF.mk 40 16 [7, 3]) [[0], [1]] [0, 1, 0] (by decide)).1,
   by exact (claim_C5 (fun _ _ => [0, 1, 1]) (CumlRF.mk 40 16 [7, 3])
     (CumlRF.mk 40 16 [7, 3]) [[0], [1]] [0, 1, 0] (by decide)).2⟩

theorem sum_map_div (l : List ℝ) (f : ℝ → ℝ) (c : ℝ) :
    (l.map (fun x => f x / c)).sum = (l.map f).sum / c := by
  induction l with
  | nil => simp
  | cons a t ih => simp [ih, add_div]

theorem sum_map_sub_const (l : List ℝ) (m : ℝ) :
    (l.map (fun x => x - m)).sum = l.sum - l.length * m := by
  induction l with
  | nil => simp
  | cons a t ih =>
      simp only [List.map_cons, List.sum_cons, ih, List.length_cons]
      push_cast
      ring

theorem colMean_sum (l : List ℝ) (h0 : l ≠ []) :
    (l.length : ℝ) * colMean l = l.sum := by
  have hn : (l.length : ℝ) ≠ 0 := by
    have := List.length_pos.mpr h0
    positivity
  rw [colMean]
  field_simp

theorem normalizeCol_mean (l : List ℝ) (h0 : l ≠ []) :
    colMean (normalizeCol l) = 0 := by
  have hsum : (l.map (fun x => (x - colMean l) / colPopStd l)).sum = 0 := by
    rw [sum_map_div l (fun x => x - colMean l) (colPopStd l),
      sum_map_sub_const, colMean_sum l h0]
    simp
  rw [colMean, normalizeCol, hsum, zero_div]

theorem colPopVar_nonneg (l : List ℝ) : 0 ≤ colPopVar l := by
  apply div_nonneg
  · apply List.sum_nonneg
    intro x hx
    simp only [List.mem_map] at hx
    obtain ⟨a, _, rfl⟩ := hx
    positivity
  · positivity

theorem normalizeCol_popVar (l : List ℝ) (h0 : l ≠ []) (hs : colPopStd l ≠ 0) :
    colPopVar (normalizeCol l) = 1 := by
  have hvar : colPopVar l ≠ 0 := by
    intro hv
    exact hs (by rw [colPopStd, hv, Real.sqrt_zero])
  have hsq : colPopStd l ^ 2 = colPopVar l := Real.sq_sqrt (colPopVar_nonneg l)
  have hmean := normalizeCol_mean l h0
  rw [colPopVar, hmean]
  have hmap : (normalizeCol l).map (fun y => (y - 0) ^ 2)
      = l.map (fun x => ((x - colMean l) / colPopStd l) ^ 2) := by
    simp [normalizeCol, List.map_map, Function.comp]
  rw [hmap]
  have hpow : (fun x => ((x - colMean l) / colPopStd l) ^ 2)
      = fun x => (x - colMean l) ^ 2 / colPopStd l ^ 2 := by
    funext x
    rw [div_pow]
  rw [hpow, sum_map_div l (fun x => (x - colMean l) ^ 2) (colPopStd l ^ 2)]
  have hlen : (normalizeCol l).length = l.length := by simp [normalizeCol]
  rw [hlen, hsq, div_right_comm]
  have : ((l.map (fun x => (x - colMean l) ^ 2)).sum) / (l.length : ℝ) = colPopVar l := rfl
  rw [this, div_self hvar]

theorem normalizeCol_popStd (l : List ℝ) (h0 : l ≠ []) (hs : colPopStd l ≠ 0) :
    colPopStd (normalizeCol l) = 1 := by
  rw [colPopStd, normalizeCol_popVar l h0 hs, Real.sqrt_one]

theorem colPopStd_replicate (n : ℕ) (c : ℝ) :
    colPopStd (List.replicate n c) = 0 := by
  cases n with
  | zero => simp [colPopStd, colPopVar, colMean]
  | succ k =>
      have hmean : colMean (List.replicate (k + 1) c) = c := by
        have hk : ((k : ℝ) + 1) ≠ 0 := by positivity
        simp only [colMean, List.sum_replicate, List.length_replicate, nsmul_eq_mul]
        push_cast
        field_simp
      simp [colPopStd, colPopVar, hmean, List.map_replicate, List.sum_replicate]

/-- C8: normalize_conts transforms every column to (x - mean)/std with the
std computed with ddof=0; when every column is nonempty with nonzero
population standard deviation, every output column has mean 0 and
population standard deviation 1; and for a constant column the divisor
std is 0, so the computation divides by zero. -/
theorem claim_C8 (df : List (List ℝ))
    (h : ∀ col ∈ df, col ≠ [] ∧ colPopStd col ≠ 0) :
    normalize_conts df
      = df.map (fun col => col.map (fun x => (x - colMean col) / colPopStd col))
    ∧ (∀ outCol ∈ normalize_conts df, colMean outCol = 0 ∧ colPopStd outCol = 1)
    ∧ (∀ (n : ℕ) (c : ℝ), colPopStd (List.replicate n c) = 0) := by
  refine ⟨rfl, ?_, fun n c => colPopStd_replicate n c⟩
  intro outCol hout
  rw [normalize_conts, List.mem_map] at hout
  obtain ⟨col, hcol, rfl⟩ := hout
  obtain ⟨h1, h2⟩ := h col hcol
  exact ⟨normalizeCol_mean col h1, normalizeCol_popStd col h1 h2⟩

/-- Witness for C8 on the dataframe with single column [1, 3]: its
population standard deviation is 1 (nonzero), and the normalized column
has mean 0 and population standard deviation 1. -/
theorem claim_C8_witness :
    colPopStd [(1 : ℝ), 3] = 1
    ∧ colMean (normalizeCol [(1 : ℝ), 3]) = 0
    ∧ colPopStd (normalizeCol [(1 : ℝ), 3]) = 1 := by
  have hv : colPopVar [(1 : ℝ), 3] = 1 := by
    simp only [colPopVar, colMean, List.sum_cons, List.sum_nil, List.map_cons,
      List.map_nil, List.length_cons, List.length_nil]
    norm_num
  have hstd : colPopStd [(1 : ℝ), 3] = 1 := by
    rw [colPopStd, hv, Real.sqrt_one]
  have h := (claim_C8 [[(1 : ℝ), 3]]
      (by
        intro col hcol
        simp only [List.mem_singleton] at hcol
        subst hcol
        exact ⟨by simp, by rw [hstd]; exact one_ne_zero⟩)).2.1
  have h2 := h (normalizeCol [(1 : ℝ), 3]) (by simp [normalize_conts])
  exact ⟨hstd, h2.1, h2.2⟩

theorem mem_map_zip {α β : Type} (f : α → β) (l : List α) :
    ∀ p ∈ (l.map f).zip l, p = (f p.2, p.2) ∧ p.2 ∈ l := by
  induction l with
  | nil => intro p hp; simp at hp
  | cons a t ih =>
      intro p hp
      simp only [List.map_cons, List.zip_cons_cons, List.mem_cons] at hp
      rcases hp with rfl | hp
      · simp
      · obtain ⟨h1, h2⟩ := ih p hp
        exact ⟨h1, List.mem_cons_of_mem a h2⟩

theorem mem_zip_map {α β : Type} (f : α → β) (l : List α) :
    ∀ p ∈ l.zip (l.map f), p = (p.1, f p.1) ∧ p.1 ∈ l := by
  induction l with
  | nil => intro p hp; simp at hp
  | cons a t ih =>
      intro p hp
      simp only [List.map_cons, List.zip_cons_cons, List.mem_cons] at hp
      rcases hp with rfl | hp
      · simp
      · obtain ⟨h1, h2⟩ := ih p hp
        exact ⟨h1, List.mem_cons_of_mem a h2⟩

theorem int16_of_nat_small (n : Nat) (h : n < 2 ^ 15) : int16_of_nat n = n := by
  simp only [int16_of_nat]
  omega

/-- Per-column behavior of categorize_columns: the codes are the int16
image of the dedup indices. -/
theorem labelEncode_codes (lst : List String) (hb : lst.dedup.length ≤ 2 ^ 15) :
    (∀ c ∈ (labelEncode lst).map int16_of_nat, 0 ≤ c ∧ c < 2 ^ 15)
    ∧ ∀ p ∈ ((labelEncode lst).map int16_of_nat).zip lst,
        ∀ q ∈ ((labelEncode lst).map int16_of_nat).zip lst,
          (p.1 = q.1 ↔ p.2 = q.2) := by
  have hmap : (labelEncode lst).map int16_of_nat
      = lst.map (fun v => int16_of_nat (lst.dedup.indexOf v)) := by
    simp [labelEncode, List.map_map, Function.comp]
  have hidx : ∀ v ∈ lst, lst.dedup.indexOf v < 2 ^ 15 := by
    intro v hv
    have hvd : v ∈ lst.dedup := List.mem_dedup.mpr hv
    exact lt_of_lt_of_le (List.indexOf_lt_length.mpr hvd) hb
  constructor
  · intro c hc
    rw [hmap] at hc
    simp only [List.mem_map] at hc
    obtain ⟨v, hv, rfl⟩ := hc
    rw [int16_of_nat_small _ (hidx v hv)]
    exact ⟨Int.natCast_nonneg _, by exact_mod_cast hidx v hv⟩
  · intro p hp q hq
    rw [hmap] at hp hq
    obtain ⟨hp1, hp2⟩ := mem_map_zip _ lst p hp
    obtain ⟨hq1, hq2⟩ := mem_map_zip _ lst q hq
    rw [hp1, hq1]
    simp only
    rw [int16_of_nat_small _ (hidx _ hp2), int16_of_nat_small _ (hidx _ hq2)]
    rw [Int.natCast_inj]
    exact List.indexOf_inj (List.mem_dedup.mpr hp2) (List.mem_dedup.mpr hq2)

/-- C9 as stated is false: cudf astype(str) preserves nulls, so the
subsequent fillna does replace a null entry by the literal NA string
(not by a stringified null as the claim asserts), and a null row
receives the same code as a row holding the literal string NA even
though their original values differ. -/
theorem claim_C9_counterexample :
    fillna_NA (astype_str (fun s => s) [(none : Option String)]) = ["NA"]
    ∧ categorize_columns (fun s => s) [[none, some "NA"]] = [[0, 0]] := by
  refine ⟨by decide, by decide⟩

/-- C9 amended: for every dataframe whose columns have at most 2^15
distinct values after string conversion and null replacement,
categorize_columns yields int16 codes that are non-negative (below 2^15),
and two rows of a column receive the same code if and only if their
values after astype(str) and fillna (which maps null to the literal NA)
are equal. -/
theorem claim_C9 {α : Type} (toStr : α → String) (df : List (List (Option α)))
    (hb : ∀ col ∈ df, (fillna_NA (astype_str toStr col)).dedup.length ≤ 2 ^ 15) :
    ∀ pr ∈ df.zip (categorize_columns toStr df),
      (∀ c ∈ pr.2, 0 ≤ c ∧ c < 2 ^ 15)
      ∧ ∀ p ∈ pr.2.zip (fillna_NA (astype_str toStr pr.1)),
          ∀ q ∈ pr.2.zip (fillna_NA (astype_str toStr pr.1)),
            (p.1 = q.1 ↔ p.2 = q.2) := by
  intro pr hpr
  obtain ⟨hpr1, hpr2⟩ := mem_zip_map
    (fun col => (labelEncode (fillna_NA (astype_str toStr col))).map int16_of_nat)
    df pr hpr
  obtain ⟨hc1, hc2⟩ := labelEncode_codes (fillna_NA (astype_str toStr pr.1))
    (hb pr.1 hpr2)
  constructor
  · intro c hc
    apply hc1
    rw [hpr1] at hc
    exact hc
  · intro p hp q hq
    rw [hpr1] at hp hq
    exact hc2 p hp q hq

/-- Witness for C9 on a one-column dataframe holding a null between two
strings. -/
theorem claim_C9_witness :
    (∀ col ∈ c9df,
      (fillna_NA (astype_str (fun s => s) col)).dedup.length ≤ 2 ^ 15)
    ∧ ∀ pr ∈ c9df.zip (categorize_columns (fun s => s) c9df),
        (∀ c ∈ pr.2, 0 ≤ c ∧ c < 2 ^ 15)
        ∧ ∀ p ∈ pr.2.zip (fillna_NA (astype_str (fun s => s) pr.1)),
            ∀ q ∈ pr.2.zip (fillna_NA (astype_str (fun s => s) pr.1)),
              (p.1 = q.1 ↔ p.2 = q.2) :=
  ⟨by decide, claim_C9 (fun s => s) c9df (by decide)⟩

end Rapids
